import Mathlib

/-!
Verification development for the `ztui` repository (a terminal UI for
managing ZeroTier virtual-network memberships).

The Rust sources are embedded shallowly:

* `HashMap<K, V>` values are modelled as association lists with unique keys
  (`alLookup` / `alInsert` / `alRemove` mirror `get` / `insert` / `remove`);
  the claims proved here do not depend on the hash iteration order.
* Machine integers (`usize`) are modelled as `Nat`; the one place where
  wrapping subtraction matters (`pos - 1` in `Settings::remove_network`)
  wraps explicitly to `USIZE_MAX`.
* Code that can panic is embedded with result type `Except String _`,
  where `.error msg` stands for a panic with message `msg`.
* Strings are modelled by their character lists where byte-level structure
  is irrelevant; the UTF-8 byte structure of `String::drain` (used by the
  Backspace handler) is modelled explicitly via `Char.utf8Size`.
* External effects (HTTP requests to the ZeroTier daemon / Central, system
  interface metrics via `Nets::store_usage`, the terminal) are modelled as
  emitted request values or event traces; their results are out of scope.

Sources: `src/config.rs`, `src/app.rs`, `src/main.rs` of the repository.
-/

/-! ## Association-list model of `HashMap` -/

/-- `HashMap::get`: look up a key in an association list. -/
def alLookup {κ α : Type} [DecidableEq κ] : List (κ × α) → κ → Option α
  | [], _ => none
  | (k, v) :: m, key => if k = key then some v else alLookup m key

/-- `HashMap::insert`: replace the binding of `key` if present, otherwise
append a new binding.  Keeps key sets and the other bindings intact. -/
def alInsert {κ α : Type} [DecidableEq κ] : List (κ × α) → κ → α → List (κ × α)
  | [], key, val => [(key, val)]
  | (k, v) :: m, key, val =>
    if k = key then (key, val) :: m else (k, v) :: alInsert m key val

/-- `HashMap::remove`: drop the (first) binding of `key`. -/
def alRemove {κ α : Type} [DecidableEq κ] : List (κ × α) → κ → List (κ × α)
  | [], _ => []
  | (k, v) :: m, key => if k = key then m else (k, v) :: alRemove m key

/-! ## Rust `str::replace`

`str::replace` substitutes every non-overlapping occurrence of a pattern,
scanning left to right; for the empty pattern it inserts the replacement at
every character boundary (including both ends).  `replAux` carries a `skip`
counter for the yet-to-be-consumed characters of a match, which makes the
recursion structural on the subject list. -/

def replAux (pat rep : List Char) : List Char → Nat → List Char
  | [], 0 => if pat.isEmpty then rep else []
  | [], _ + 1 => []
  | _ :: s, skip + 1 => replAux pat rep s skip
  | c :: s, 0 =>
    if pat.isEmpty then rep ++ c :: replAux pat rep s 0
    else if pat.isPrefixOf (c :: s) then rep ++ replAux pat rep s (pat.length - 1)
    else c :: replAux pat rep s 0

/-- Rust `subject.replace(pat, rep)`, on character lists. -/
def replaceAll (pat rep s : List Char) : List Char := replAux pat rep s 0

/-- Rust `subject.replace(pat, rep)`, on `String`. -/
def rustReplace (s pat rep : String) : String :=
  String.mk (replaceAll pat.data rep.data s.data)

/-- `pat` occurs as a contiguous sublist of `s` (the search `str::replace`
performs); for `pat = []` this is true only for `s = []`, which is all the
no-occurrence lemma below needs. -/
def occursIn (pat : List Char) : List Char → Bool
  | [] => pat.isEmpty
  | c :: s => pat.isPrefixOf (c :: s) || occursIn pat s

/-! ## Data model (`config.rs`, `app.rs`)

`zerotier_one_api::types::Network` is a generated type whose `subtype_1`
carries the fields used by this program.  `id` and `port_device_name` are
`Option<String>` in the generated code but are unwrapped unconditionally on
every path the claims exercise, so they are embedded as `String`; `status`
is kept optional (the merge writes `Some("DISCONNECTED")`), and
`assigned_addresses` is the `Vec<String>` whose emptiness drives the
`template_network` panic. -/

structure Network where
  id : String
  name : Option String
  status : Option String
  assigned_addresses : List String
  port_device_name : String
deriving DecidableEq

/-- `zerotier_central_api::types::Member`, reduced to the fields this
program reads; only carried through `Settings.members` here. -/
structure Member where
  node_id : Option String
  network_id : Option String
  mname : Option String
deriving DecidableEq

/-- `app.rs`: `pub const STATUS_DISCONNECTED: &str = "DISCONNECTED"`. -/
def STATUS_DISCONNECTED : String := "DISCONNECTED"

/-- `app.rs` `enum ListFilter`. -/
inductive ListFilter
  | None
  | Connected
deriving DecidableEq

/-- `app.rs` `enum Page`. -/
inductive Page
  | Networks
  | Network (id : String)
deriving DecidableEq

/-- `app.rs` `enum Dialog`. -/
inductive Dialog
  | None
  | Join
  | Config
  | Help
  | APIKey (id : String)
  | RenameMember (network_id member_id : String)
  | AddMember (network_id : String)
  | NetworkFlags (id : String)
deriving DecidableEq

/-- `app.rs` `enum EditingMode`. -/
inductive EditingMode
  | Command
  | Editing
deriving DecidableEq

/-- `config.rs` `struct UserConfig`: per-key command templates. -/
structure UserConfig where
  network_commands : List (Char × String)
  member_commands : List (Char × String)
deriving DecidableEq

/-- `impl Default for UserConfig`: both template maps empty. -/
def UserConfig.defaultConfig : UserConfig :=
  { network_commands := [], member_commands := [] }

/-- `config.rs` `struct Settings`.  Fields marked `#[serde(skip)]` in the
source (`last_error`, `page`, `network_state`, `user_config`) are the
transient fields; `network_state` is the `TableState` selection, kept as
its `Option Nat` `selected()` value.  The `nets : Nets` field (a handle on
OS interface statistics, also `#[serde(skip)]`) is omitted: `store_usage`
only samples system metrics and never feeds back into the store. -/
structure Settings where
  api_keys : List (String × String)
  savednetworks : List (String × Network)
  savednetworksidx : List String
  members : List (String × List Member)
  filter : ListFilter
  last_error : Option String
  page : Page
  network_state : Option Nat
  user_config : UserConfig
deriving DecidableEq

/-- `impl Default for Settings` (minus the omitted `nets` handle). -/
def Settings.defaultSettings : Settings :=
  { api_keys := []
    savednetworks := []
    savednetworksidx := []
    members := []
    filter := ListFilter.None
    last_error := none
    page := Page.Networks
    network_state := none
    user_config := UserConfig.defaultConfig }

/-! ## Template substitution (`config.rs::template_network`) -/

/-- `config.rs::template_network`.  Returns `none` untouched when no
template is bound; otherwise substitutes `%i` (interface), `%n` (network
id) and `%a` (first assigned address) in that order.  The `%a` argument is
`assigned_addresses.iter().nth(0).expect("No assigned addresses")`,
evaluated unconditionally before the final `replace` call, so an empty
address list panics (here: `.error`) whether or not `%a` occurs; the
substitutions are pure, so performing the emptiness check first is
observationally identical to the source's evaluation order. -/
def template_network (s : Option String) (network : Network) :
    Except String (Option String) :=
  match s with
  | none => .ok none
  | some t =>
    match network.assigned_addresses.head? with
    | none => .error "No assigned addresses"
    | some addr =>
      .ok (some (rustReplace (rustReplace (rustReplace t "%i"
        network.port_device_name) "%n" network.id) "%a" addr))

/-- `config.rs::UserConfig::command_for_network`. -/
def UserConfig.command_for_network (uc : UserConfig) (c : Char)
    (network : Network) : Except String (Option String) :=
  template_network (alLookup uc.network_commands c) network

/-! ## The network store (`config.rs::Settings`) -/

/-- The status rewrite performed by the merge loop of `update_networks` on
one map entry: an entry whose id the fresh poll did not report is marked
`DISCONNECTED`; reported entries are left alone (their `store_usage` metric
sampling is an external effect, omitted). -/
def markDisconnected (ids : List String) (p : String × Network) :
    String × Network :=
  if p.1 ∈ ids then p
  else (p.1, { p.2 with status := some STATUS_DISCONNECTED })

/-- `config.rs::Settings::update_networks` (lines 169-200).

First loop: for each polled network, record its id in `ids`, set the `new`
flag if its id is not yet a key of `savednetworks`, and insert it.

Second loop, over the (map, flag) result: for each map entry, append its id
to `savednetworksidx` when missing, and mark entries absent from `ids` as
`DISCONNECTED`.  The source interleaves the two per-entry actions in one
`for` loop; they touch disjoint components (index list vs. entry value), so
they are carried as the two components of one fold accumulator.

The source returns `Ok(new)`; nothing in the body can return `Err`, so the
embedding returns the pair directly. -/
def update_networks (s : Settings) (networks : List Network) :
    Settings × Bool :=
  let ids := networks.map Network.id
  let ins := networks.foldl
    (fun acc n => (alInsert acc.1 n.id n, acc.2 || (alLookup acc.1 n.id).isNone))
    (s.savednetworks, false)
  let merged := ins.1.foldl
    (fun acc p =>
      ((if p.1 ∈ acc.1 then acc.1 else acc.1 ++ [p.1]),
       acc.2 ++ [markDisconnected ids p]))
    (s.savednetworksidx, ([] : List (String × Network)))
  ({ s with savednetworks := merged.2, savednetworksidx := merged.1 }, ins.2)

/-- `usize::MAX`: the value `pos - 1` wraps to when `pos = 0` (release
builds; debug builds abort on the overflow itself — a panic either way). -/
def USIZE_MAX : Nat := 2 ^ 64 - 1

/-- `config.rs::Settings::remove_network` (lines 202-206):

```text
let id = self.savednetworksidx[pos].clone();
self.savednetworksidx = self.savednetworksidx.splice(pos - 1..pos, []).collect();
self.savednetworks.remove(&id);
```

Line 1 panics when `pos` is out of bounds.  `Vec::splice(lo..hi, [])`
panics when `lo > hi` or `hi > len` — for `pos = 0` the wrapped `lo` is
`USIZE_MAX`, so the call panics — and otherwise removes the range and
returns an iterator over the *removed* elements; `collect()` of that
iterator (here `(drop lo).take (hi - lo)`, i.e. `[idx[pos-1]]`) is then
assigned back to `savednetworksidx`, discarding the rest of the list. -/
def remove_network (s : Settings) (pos : Nat) : Except String Settings :=
  match s.savednetworksidx.get? pos with
  | none => .error "index out of bounds"
  | some id =>
    let lo := if pos = 0 then USIZE_MAX else pos - 1
    if lo > pos ∨ pos > s.savednetworksidx.length then
      .error "slice index out of range"
    else
      .ok { s with
        savednetworksidx := (s.savednetworksidx.drop lo).take (pos - lo),
        savednetworks := alRemove s.savednetworks id }

/-! ## Navigation handlers (`app.rs::App::command_mode_key`) -/

/-- The two keys the clamping claim quantifies over. -/
inductive NavKey
  | up
  | down
deriving DecidableEq

/-- Network-list cursor, `command_mode_key` lines 357-369 (Up/Down under
`Page::Networks`, `Dialog::None`); `count` is `lock.count()`.  Up selects
`pos - 1` when `pos > 0` and pins `Some(0)` otherwise; Down advances only
while `pos + 1 < count`. -/
def network_list_nav (count : Nat) (sel : Option Nat) : NavKey → Option Nat
  | NavKey.up =>
    let pos := sel.getD 0
    if pos > 0 then some (pos - 1) else some 0
  | NavKey.down =>
    let pos := sel.getD 0 + 1
    if pos < count then some pos else sel

/-- Member-table cursor, `command_mode_key` lines 230-243 (Up/Down under
`Page::Network(id)`); `count` is `self.member_count`.  Up only acts when a
selection exists and is positive; Down advances while `pos + 1 < count`. -/
def member_table_nav (count : Nat) (sel : Option Nat) : NavKey → Option Nat
  | NavKey.up =>
    match sel with
    | some pos => if pos > 0 then some (pos - 1) else some pos
    | none => none
  | NavKey.down =>
    let pos := sel.getD 0 + 1
    if pos < count then some pos else sel

/-! ## Entering a network's member view (`app.rs`) -/

/-- `app.rs::App` — the fields the embedded handlers touch.  `member_state`
is the member table's `TableState` selection. -/
structure App where
  editing_mode : EditingMode
  dialog : Dialog
  inputbuffer : List Char
  member_state : Option Nat
deriving DecidableEq

/-- `impl Default for App`. -/
def App.defaultApp : App :=
  { editing_mode := EditingMode.Command
    dialog := Dialog.None
    inputbuffer := []
    member_state := none }

/-- The `'s'` branch of `command_mode_key` (lines 417-430), dispatched when
`page = Networks`, `dialog = None`, `mode = Command`: resolve the selected
network id (indexing panics when the position is out of bounds); with a
stored API key, reset the member cursor and move to that network's member
page; without one, open the `APIKey` dialog in editing mode with a cleared
buffer, leaving the page alone. -/
def press_s (app : App) (s : Settings) : Except String (App × Settings) :=
  match s.savednetworksidx.get? (s.network_state.getD 0) with
  | none => .error "index out of bounds"
  | some id =>
    if (alLookup s.api_keys id).isSome then
      .ok ({ app with member_state := some 0 }, { s with page := Page.Network id })
    else
      .ok ({ app with dialog := Dialog.APIKey id,
                      editing_mode := EditingMode.Editing,
                      inputbuffer := [] }, s)

/-- Modelled from the spec: the Background Refresher thread of this
revision is not under `src/` (only `Settings.members` and the member-view
rendering are); spec section 4.3 states it re-fetches "whichever dataset is
relevant to the current view (network list when `view = NetworkList`;
member roster when `view = NetworkDetail`)".  So a member-list request is
issued exactly for the network whose member page is current. -/
def refresher_member_fetch (s : Settings) : Option String :=
  match s.page with
  | Page.Networks => none
  | Page.Network id => some id

/-! ## Text-entry mode (`app.rs::App::edit_mode_key`) -/

/-- UTF-8 byte length of a character list (Rust `String::len`). -/
def utf8Len : List Char → Nat
  | [] => 0
  | c :: s => c.utf8Size + utf8Len s

/-- Is byte offset `i` a character boundary of `s` (Rust
`str::is_char_boundary`, with offsets beyond the end not boundaries)? -/
def isBoundary : List Char → Nat → Bool
  | _, 0 => true
  | [], _ + 1 => false
  | c :: s, i + 1 =>
    if i + 1 < c.utf8Size then false else isBoundary s (i + 1 - c.utf8Size)

/-- Keep the characters of `s` whose starting byte offset (counted from
`off`) lies outside `[lo, hi)`.  Under the boundary checks of
`drainRange` this is exactly the effect of draining the byte range. -/
def drainGo (lo hi : Nat) : List Char → Nat → List Char
  | [], _ => []
  | c :: s, off =>
    if lo ≤ off ∧ off < hi then drainGo lo hi s (off + c.utf8Size)
    else c :: drainGo lo hi s (off + c.utf8Size)

/-- Rust `String::drain(lo..hi)` restricted to its effect on the buffer:
panics unless `lo ≤ hi` and both ends are char boundaries (offsets past the
end are not boundaries), otherwise removes the bytes in `[lo, hi)`. -/
def drainRange (s : List Char) (lo hi : Nat) : Except String (List Char) :=
  if lo ≤ hi ∧ isBoundary s lo ∧ isBoundary s hi then
    .ok (drainGo lo hi s 0)
  else .error "byte index is not a char boundary"

/-- The `Backspace` branch of `edit_mode_key` (app.rs lines 504-509, same
code in main.rs lines 509-514):

```text
if self.inputbuffer.len() > 0 {
    self.inputbuffer.drain(self.inputbuffer.len() - 1..self.inputbuffer.len());
}
```

`len()` is the byte length, so the drained range is the last byte. -/
def backspace (buf : List Char) : Except String (List Char) :=
  if utf8Len buf > 0 then drainRange buf (utf8Len buf - 1) (utf8Len buf)
  else .ok buf

/-- Remote requests a handler hands to the gateway/runtime; their results
are external and out of scope. -/
inductive Req
  | joinNetwork (id : String)
  | authorizeMember (network_id node_id : String)
  | renameMember (network_id member_id new_name : String)
deriving DecidableEq

/-- Key events, as far as `edit_mode_key` distinguishes them. -/
inductive KeyCode
  | Char (c : Char)
  | Esc
  | Backspace
  | Enter
  | other
deriving DecidableEq

/-- `app.rs::App::edit_mode_key` (lines 489-559).  `Char` appends to the
buffer; `Esc` discards buffer and dialog; `Backspace` drains the last byte
(see `backspace`); `Enter` commits the buffer to the action of the current
dialog — `Join` sends a join request (the source `.unwrap()`s the remote
result, treated here as an emitted request), `APIKey(id)` stores the
credential and moves to that network's member page, `AddMember`/
`RenameMember` `.unwrap()` the stored API key (a panic when absent) and
send the corresponding request — then clears buffer, dialog and mode. -/
def edit_mode_key (app : App) (s : Settings) (key : KeyCode) :
    Except String (App × Settings × List Req) :=
  match key with
  | KeyCode.Char x => .ok ({ app with inputbuffer := app.inputbuffer ++ [x] }, s, [])
  | KeyCode.Esc =>
    .ok ({ app with inputbuffer := [], dialog := Dialog.None,
                    editing_mode := EditingMode.Command }, s, [])
  | KeyCode.Backspace =>
    (backspace app.inputbuffer).map fun b => ({ app with inputbuffer := b }, s, [])
  | KeyCode.other => .ok (app, s, [])
  | KeyCode.Enter =>
    let committed : Except String (Settings × List Req) :=
      match app.dialog with
      | Dialog.Join => .ok (s, [Req.joinNetwork (String.mk app.inputbuffer)])
      | Dialog.APIKey id =>
        .ok ({ s with api_keys := alInsert s.api_keys id (String.mk app.inputbuffer),
                      page := Page.Network id }, [])
      | Dialog.AddMember network_id =>
        match alLookup s.api_keys network_id with
        | none => .error "called Option::unwrap on a None value"
        | some _ => .ok (s, [Req.authorizeMember network_id (String.mk app.inputbuffer)])
      | Dialog.RenameMember network_id member_id =>
        match alLookup s.api_keys network_id with
        | none => .error "called Option::unwrap on a None value"
        | some _ =>
          .ok ({ s with page := Page.Network network_id },
               [Req.renameMember network_id member_id (String.mk app.inputbuffer)])
      | _ => .ok (s, [])
    committed.map fun r =>
      ({ app with inputbuffer := [], dialog := Dialog.None,
                  editing_mode := EditingMode.Command }, r.1, r.2)

/-! ## Persistence (`config.rs::Settings::{to_file, from_dir}`) -/

/-- The shape `serde` persists for `Settings`: exactly the fields without
`#[serde(skip)]`.  Serialization of these field types (string maps, string
lists, a unit enum) through JSON is faithful, so the round trip through
`settings.json` is modelled as the identity on this record. -/
structure PersistedSettings where
  api_keys : List (String × String)
  savednetworks : List (String × Network)
  savednetworksidx : List String
  members : List (String × List Member)
  filter : ListFilter
deriving DecidableEq

/-- `Settings::to_file`: write the non-skipped fields to `settings.json`. -/
def Settings.to_file (s : Settings) : PersistedSettings :=
  { api_keys := s.api_keys
    savednetworks := s.savednetworks
    savednetworksidx := s.savednetworksidx
    members := s.members
    filter := s.filter }

/-- `Settings::from_dir` (config.rs lines 138-148): deserialize
`settings.json` — the skipped fields take their `Default` values — then
overwrite `user_config` with the result of `UserConfig::from_dir`
(`config.json`), falling back to the default only when that read/parse
fails; `ucFile` is that read's result. -/
def Settings.from_dir (p : PersistedSettings) (ucFile : Option UserConfig) :
    Settings :=
  { api_keys := p.api_keys
    savednetworks := p.savednetworks
    savednetworksidx := p.savednetworksidx
    members := p.members
    filter := p.filter
    last_error := none
    page := Page.Networks
    network_state := none
    user_config := ucFile.getD UserConfig.defaultConfig }

/-! ## Process exit (`main.rs::main`, lines 84-102) -/

/-- Externally observable steps of `main`'s epilogue. -/
inductive ExitEvent
  | write_settings
  | teardown
  | print_msg (msg : String)
deriving DecidableEq

/-- `main.rs` lines 84-102:

```text
let res = run_app(&mut terminal, &mut app);
std::fs::write(..settings file..)?;
disable_raw_mode()?;
execute!(terminal.backend_mut(), LeaveAlternateScreen)?;
terminal.show_cursor()?;
if let Err(err) = res { println!("{}", err); }
Ok(())
```

`res` is the session loop's outcome and `write_ok` whether the settings
write succeeds.  On write success: write, tear the terminal down, then
print a session error (if any) to stdout, and return success.  On write
failure the `?` propagates immediately: no teardown, no printing.  The
teardown calls themselves are modelled as succeeding. -/
def main_exit (res : Except String Unit) (write_ok : Bool) :
    List ExitEvent × Except String Unit :=
  if write_ok then
    ([ExitEvent.write_settings, ExitEvent.teardown] ++
      (match res with
       | .error e => [ExitEvent.print_msg e]
       | .ok _ => []),
     .ok ())
  else
    ([], .error "could not write settings file")

/-! ## Concrete fixtures used by evaluations and witnesses -/

/-- A polled network record (bookmark "aaaa"). -/
def netA : Network :=
  { id := "aaaa", name := some "alpha", status := some "OK",
    assigned_addresses := ["10.0.0.1"], port_device_name := "zt0" }

/-- A polled network record (bookmark "bbbb"). -/
def netB : Network :=
  { id := "bbbb", name := some "beta", status := some "OK",
    assigned_addresses := ["10.0.0.2"], port_device_name := "zt1" }

/-- A polled network record (bookmark "cccc"). -/
def netC : Network :=
  { id := "cccc", name := some "gamma", status := some "OK",
    assigned_addresses := ["10.0.0.3"], port_device_name := "zt2" }

/-- The network of the spec's substitution example: id `abcd`, first
assigned address `10.0.0.2`. -/
def netExample : Network :=
  { id := "abcd", name := some "mynet", status := some "OK",
    assigned_addresses := ["10.0.0.2", "fe80::1"], port_device_name := "ztexmpl" }

/-- A network with no assigned addresses (drives the `template_network`
panic). -/
def netNoAddr : Network :=
  { id := "eeee", name := some "empty", status := some "REQUESTING_CONFIGURATION",
    assigned_addresses := [], port_device_name := "zt9" }

/-- A non-default user configuration, as parsed from a `config.json`. -/
def ucPing : UserConfig :=
  { network_commands := [('p', "ping %a"), ('e', "echo hi")],
    member_commands := [] }

/-- A store with two bookmarked networks. -/
def settingsXY : Settings :=
  { Settings.defaultSettings with
    savednetworks := [("xxxx", netA), ("yyyy", netB)]
    savednetworksidx := ["xxxx", "yyyy"] }

/-- A store showing the network list with one bookmark selected and no
stored API key. -/
def settingsNoKey : Settings :=
  { Settings.defaultSettings with
    savednetworks := [("nnnn", netA)]
    savednetworksidx := ["nnnn"]
    network_state := some 0 }

/-- `settingsNoKey` with a credential stored for the bookmark. -/
def settingsWithKey : Settings :=
  { settingsNoKey with api_keys := [("nnnn", "tok")] }

/-- An `App` amid credential entry for network `nnnn`. -/
def appKeyDialog : App :=
  { App.defaultApp with
    dialog := Dialog.APIKey "nnnn"
    editing_mode := EditingMode.Editing
    inputbuffer := "secret".data }

/-! ## Association-list lemmas -/

theorem alLookup_alInsert_self {κ α : Type} [DecidableEq κ]
    (m : List (κ × α)) (k : κ) (v : α) :
    alLookup (alInsert m k v) k = some v := by
  induction m with
  | nil => simp [alInsert, alLookup]
  | cons p m ih =>
    by_cases h : p.1 = k
    · simp [alInsert, alLookup, h]
    · simp [alInsert, alLookup, h, ih]

theorem alLookup_alInsert_ne {κ α : Type} [DecidableEq κ]
    (m : List (κ × α)) (k' k : κ) (v : α) (h : k' ≠ k) :
    alLookup (alInsert m k' v) k = alLookup m k := by
  induction m with
  | nil => simp [alInsert, alLookup, h]
  | cons p m ih =>
    by_cases hp : p.1 = k'
    · simp [alInsert, alLookup, hp, h]
    · simp only [alInsert, hp, if_false]
      by_cases hk : p.1 = k
      · simp [alLookup, hk]
      · simp [alLookup, hk, ih]

theorem mem_keys_of_alLookup_isSome {κ α : Type} [DecidableEq κ]
    (m : List (κ × α)) (k : κ) (h : (alLookup m k).isSome = true) :
    k ∈ m.map Prod.fst := by
  induction m with
  | nil => simp [alLookup] at h
  | cons p m ih =>
    by_cases hp : p.1 = k
    · simp [hp]
    · simp only [alLookup, hp, if_false] at h
      simp [ih h]

/-! ## Fold decomposition lemmas for `update_networks` -/

theorem insFold_fst (networks : List Network) (m0 : List (String × Network))
    (b0 : Bool) :
    (networks.foldl
      (fun acc n => (alInsert acc.1 n.id n, acc.2 || (alLookup acc.1 n.id).isNone))
      (m0, b0)).1
    = networks.foldl (fun m n => alInsert m n.id n) m0 := by
  induction networks generalizing m0 b0 with
  | nil => rfl
  | cons n ns ih => simp [List.foldl, ih]

theorem mergeFold_fst (l : List (String × Network)) (ids : List String)
    (i0 : List String) (a0 : List (String × Network)) :
    (l.foldl
      (fun acc p => ((if p.1 ∈ acc.1 then acc.1 else acc.1 ++ [p.1]),
                     acc.2 ++ [markDisconnected ids p]))
      (i0, a0)).1
    = l.foldl (fun i p => if p.1 ∈ i then i else i ++ [p.1]) i0 := by
  induction l generalizing i0 a0 with
  | nil => rfl
  | cons p l ih => simp only [List.foldl, ih]

theorem mergeFold_snd (l : List (String × Network)) (ids : List String)
    (i0 : List String) (a0 : List (String × Network)) :
    (l.foldl
      (fun acc p => ((if p.1 ∈ acc.1 then acc.1 else acc.1 ++ [p.1]),
                     acc.2 ++ [markDisconnected ids p]))
      (i0, a0)).2
    = a0 ++ l.map (markDisconnected ids) := by
  induction l generalizing i0 a0 with
  | nil => simp
  | cons p l ih => simp [List.foldl, ih]

theorem mem_idxFold_of_mem (l : List (String × Network)) (i0 : List String)
    (x : String) (h : x ∈ i0) :
    x ∈ l.foldl (fun i p => if p.1 ∈ i then i else i ++ [p.1]) i0 := by
  induction l generalizing i0 with
  | nil => exact h
  | cons p l ih =>
    simp only [List.foldl]
    by_cases hp : p.1 ∈ i0
    · simp only [hp, if_true]; exact ih i0 h
    · simp only [hp, if_false]
      exact ih _ (List.mem_append_left _ h)

theorem mem_idxFold_of_key (l : List (String × Network)) (i0 : List String)
    (x : String) (h : x ∈ l.map Prod.fst) :
    x ∈ l.foldl (fun i p => if p.1 ∈ i then i else i ++ [p.1]) i0 := by
  induction l generalizing i0 with
  | nil => simp at h
  | cons p l ih =>
    simp only [List.map, List.mem_cons] at h
    simp only [List.foldl]
    rcases h with h | h
    · by_cases hp : p.1 ∈ i0
      · simp only [hp, if_true]
        exact mem_idxFold_of_mem l i0 x (h ▸ hp)
      · simp only [hp, if_false]
        exact mem_idxFold_of_mem l _ x (by simp [h])
    · exact ih _ h

theorem alLookup_insFold_not_polled (networks : List Network)
    (m0 : List (String × Network)) (id : String)
    (h : id ∉ networks.map Network.id) :
    alLookup (networks.foldl (fun m n => alInsert m n.id n) m0) id
    = alLookup m0 id := by
  induction networks generalizing m0 with
  | nil => rfl
  | cons n ns ih =>
    simp only [List.map, List.mem_cons, not_or] at h
    simp only [List.foldl]
    rw [ih _ h.2, alLookup_alInsert_ne _ _ _ _ (fun he => h.1 he.symm)]

theorem alLookup_map_markDisconnected (l : List (String × Network))
    (ids : List String) (k : String) :
    alLookup (l.map (markDisconnected ids)) k
    = (alLookup l k).map
        (fun v => if k ∈ ids then v
                  else { v with status := some STATUS_DISCONNECTED }) := by
  induction l with
  | nil => rfl
  | cons p l ih =>
    obtain ⟨k', v'⟩ := p
    simp only [List.map, markDisconnected]
    by_cases hm : k' ∈ ids
    · rw [if_pos hm]
      by_cases hk : k' = k
      · subst hk; simp [alLookup, hm]
      · simp [alLookup, hk, ih]
    · rw [if_neg hm]
      by_cases hk : k' = k
      · subst hk; simp [alLookup, hm]
      · simp [alLookup, hk, ih]

/-! ## C1 — network index/map consistency -/

/-- C1: the claim states that after every sequence of `update_networks`
merges and `remove_network` deletions the order list `savednetworksidx`
has exactly as many entries as `savednetworks` has keys.  The code
violates it (the spec's stated invariant is the intent; `remove_network`'s
splice-collect-reassign is the slip): merging one poll of three networks
and then deleting position 1 leaves a one-entry order list beside a
two-key map.  This theorem evaluates the embedded code on that failing
sequence. -/
theorem C1_index_map_consistency_eval :
    (remove_network (update_networks Settings.defaultSettings
          [netA, netB, netC]).1 1).toOption.map
        (fun s => (s.savednetworksidx.length, s.savednetworks.length))
      = some (1, 2) ∧ (1 : Nat) ≠ 2 := by
  exact ⟨rfl, by decide⟩

/-! ## C2 — semantics of `remove_network` -/

/-- C2 (counterexample): the claim describes the surviving order list as
the old list with the range `pos-1..pos` spliced out — for
`["aaaa", "bbbb", "cccc"]` and `pos = 1` that remainder would be
`["bbbb", "cccc"]` — but the code assigns the *collected drained range*
back, leaving `["aaaa"]`. -/
theorem C2_remove_network_counterexample :
    (remove_network (update_networks Settings.defaultSettings
          [netA, netB, netC]).1 1).toOption.map Settings.savednetworksidx
      = some ["aaaa"]
    ∧ some ["aaaa"] ≠ some ["bbbb", "cccc"] := by
  exact ⟨rfl, by decide⟩

/-- C2 (amended): invoked with a valid zero-based position `pos`,
`remove_network` removes the map entry keyed by the id at order-list
position `pos`, but instead of splicing `pos-1..pos` out of the order
list it REPLACES the order list with the one-element drained range
`[idx[pos-1]]` (the `collect()` of `Vec::splice`'s removed-element
iterator), discarding every other entry; for `pos = 0` the range's lower
bound underflows and the call panics, so in particular the entry at
position 0 is never cleanly deleted. -/
theorem C2_remove_network_semantics (s : Settings) (pos : Nat) (id : String)
    (hpos : s.savednetworksidx.get? pos = some id) :
    (pos = 0 → remove_network s pos = .error "slice index out of range")
    ∧ (pos ≠ 0 → ∃ prev, s.savednetworksidx.get? (pos - 1) = some prev ∧
        remove_network s pos
          = .ok { s with savednetworksidx := [prev],
                         savednetworks := alRemove s.savednetworks id }) := by
  have hlen : pos < s.savednetworksidx.length := (List.get?_eq_some.mp hpos).1
  constructor
  · intro h0
    subst h0
    simp only [remove_network, hpos]
    rw [if_pos]
    left
    norm_num [USIZE_MAX]
  · intro hne
    have h1 : pos - 1 < s.savednetworksidx.length :=
      lt_of_le_of_lt (Nat.sub_le _ _) hlen
    refine ⟨s.savednetworksidx[pos - 1], ?_, ?_⟩
    · simp [List.get?_eq_getElem?, List.getElem?_eq_getElem h1]
    · simp only [remove_network, hpos]
      rw [if_neg hne]
      have hc : ¬(pos - 1 > pos ∨ pos > s.savednetworksidx.length) := by omega
      rw [if_neg hc]
      have h2 : pos - (pos - 1) = 1 := by omega
      rw [h2, List.drop_eq_getElem_cons h1]
      rfl

/-- C2 (witness): the amended theorem applied to the two-bookmark store at
position 1. -/
theorem C2_remove_network_semantics_witness :
    settingsXY.savednetworksidx.get? 1 = some "yyyy" ∧
    remove_network settingsXY 1
      = .ok { settingsXY with savednetworksidx := ["xxxx"],
                              savednetworks := alRemove settingsXY.savednetworks "yyyy" } := by
  refine ⟨rfl, ?_⟩
  obtain ⟨prev, hprev, heq⟩ :=
    (C2_remove_network_semantics settingsXY 1 "yyyy" rfl).2 (by decide)
  have h2 : (some "xxxx" : Option String) = some prev := hprev
  injection h2 with h3
  rw [← h3] at heq
  exact heq

/-! ## C3 — soft delete of absent networks -/

/-- C3: for every network already present in the saved-network store whose
id a successful poll does not report, `update_networks` keeps its record in
the map with status `DISCONNECTED` and keeps (or first appends) its id in
the order list — the merge never removes a previously-known network. -/
theorem C3_soft_delete (s : Settings) (networks : List Network) (id : String)
    (hknown : (alLookup s.savednetworks id).isSome = true)
    (habsent : id ∉ networks.map Network.id) :
    (∃ v, alLookup ((update_networks s networks).1).savednetworks id = some v
        ∧ v.status = some STATUS_DISCONNECTED)
    ∧ id ∈ ((update_networks s networks).1).savednetworksidx := by
  obtain ⟨v0, hv0⟩ := Option.isSome_iff_exists.mp hknown
  have hM : alLookup (networks.foldl (fun m n => alInsert m n.id n)
      s.savednetworks) id = some v0 := by
    rw [alLookup_insFold_not_polled _ _ _ habsent, hv0]
  constructor
  · refine ⟨{ v0 with status := some STATUS_DISCONNECTED }, ?_, rfl⟩
    simp only [update_networks]
    rw [mergeFold_snd, insFold_fst, List.nil_append,
      alLookup_map_markDisconnected, hM]
    simp [habsent]
  · simp only [update_networks]
    rw [mergeFold_fst, insFold_fst]
    exact mem_idxFold_of_key _ _ _
      (mem_keys_of_alLookup_isSome _ _ (by rw [hM]; rfl))

/-- C3 (witness): `update_networks` on the two-bookmark store with a poll
reporting only the unrelated network `cccc` marks bookmark `xxxx`
disconnected and keeps it indexed. -/
theorem C3_soft_delete_witness :
    (alLookup settingsXY.savednetworks "xxxx").isSome = true ∧
    (alLookup ((update_networks settingsXY [netC]).1).savednetworks
        "xxxx").map Network.status = some (some STATUS_DISCONNECTED) ∧
    "xxxx" ∈ ((update_networks settingsXY [netC]).1).savednetworksidx := by
  have h := C3_soft_delete settingsXY [netC] "xxxx" rfl (by decide)
  refine ⟨rfl, ?_, h.2⟩
  obtain ⟨v, hv, hst⟩ := h.1
  rw [hv]
  simp [hst]

/-! ## C4 — selection clamping -/

theorem network_list_nav_step (n : Nat) (sel : Option Nat) (k : NavKey)
    (h1 : sel ≠ none) (h2 : sel.getD 0 ≤ n - 1) :
    network_list_nav n sel k ≠ none
    ∧ (network_list_nav n sel k).getD 0 ≤ n - 1 := by
  cases k with
  | up =>
    simp only [network_list_nav]
    by_cases hp : sel.getD 0 > 0
    · rw [if_pos hp]
      refine ⟨by simp, ?_⟩
      simp only [Option.getD_some]
      omega
    · rw [if_neg hp]
      exact ⟨by simp, by simp⟩
  | down =>
    simp only [network_list_nav]
    by_cases hp : sel.getD 0 + 1 < n
    · rw [if_pos hp]
      refine ⟨by simp, ?_⟩
      simp only [Option.getD_some]
      omega
    · rw [if_neg hp]
      exact ⟨h1, h2⟩

theorem member_table_nav_step (n : Nat) (sel : Option Nat) (k : NavKey)
    (h1 : sel ≠ none) (h2 : sel.getD 0 ≤ n - 1) :
    member_table_nav n sel k ≠ none
    ∧ (member_table_nav n sel k).getD 0 ≤ n - 1 := by
  cases k with
  | up =>
    cases sel with
    | none => exact absurd rfl h1
    | some pos =>
      simp only [member_table_nav]
      by_cases hp : pos > 0
      · rw [if_pos hp]
        refine ⟨by simp, ?_⟩
        simp only [Option.getD_some] at h2 ⊢
        omega
      · rw [if_neg hp]
        exact ⟨h1, h2⟩
  | down =>
    simp only [member_table_nav]
    by_cases hp : sel.getD 0 + 1 < n
    · rw [if_pos hp]
      refine ⟨by simp, ?_⟩
      simp only [Option.getD_some]
      omega
    · rw [if_neg hp]
      exact ⟨h1, h2⟩

theorem nav_fold_inv (n : Nat) (step : Option Nat → NavKey → Option Nat)
    (hstep : ∀ sel k, sel ≠ none → sel.getD 0 ≤ n - 1 →
      step sel k ≠ none ∧ (step sel k).getD 0 ≤ n - 1)
    (keys : List NavKey) (sel : Option Nat)
    (h1 : sel ≠ none) (h2 : sel.getD 0 ≤ n - 1) :
    List.foldl step sel keys ≠ none
    ∧ (List.foldl step sel keys).getD 0 ≤ n - 1 := by
  induction keys generalizing sel with
  | nil => exact ⟨h1, h2⟩
  | cons k keys ih =>
    have h := hstep sel k h1 h2
    exact ih (step sel k) h.1 h.2

/-- C4: for every cardinality `n ≥ 0`, every starting selection within
`[0, max(n-1,0)]` (in saturating `Nat` arithmetic: `start ≤ n - 1`) and
every finite sequence of Up/Down keystrokes handled in command mode, both
the network-list cursor and the member-table cursor stay selected and
within `[0, max(n-1,0)]`; the handlers are total functions of this state
(no indexing, no underflow — `pos - 1` is taken only under `pos > 0`), so
no keystroke can panic, including when `n = 0`. -/
theorem C4_selection_clamping (n start : Nat) (keys : List NavKey)
    (hstart : start ≤ n - 1) :
    (List.foldl (network_list_nav n) (some start) keys ≠ none
      ∧ (List.foldl (network_list_nav n) (some start) keys).getD 0 ≤ n - 1)
    ∧ (List.foldl (member_table_nav n) (some start) keys ≠ none
      ∧ (List.foldl (member_table_nav n) (some start) keys).getD 0 ≤ n - 1) :=
  ⟨nav_fold_inv n (network_list_nav n) (network_list_nav_step n) keys
      (some start) (by simp) (by simpa),
   nav_fold_inv n (member_table_nav n) (member_table_nav_step n) keys
      (some start) (by simp) (by simpa)⟩

/-- C4 (witness): three rows, start at row 1, keys Up·Down·Down·Down. -/
theorem C4_selection_clamping_witness :
    (1 : Nat) ≤ 3 - 1 ∧
    ((List.foldl (network_list_nav 3) (some 1)
        [NavKey.up, NavKey.down, NavKey.down, NavKey.down] ≠ none
      ∧ (List.foldl (network_list_nav 3) (some 1)
        [NavKey.up, NavKey.down, NavKey.down, NavKey.down]).getD 0 ≤ 3 - 1)
    ∧ (List.foldl (member_table_nav 3) (some 1)
        [NavKey.up, NavKey.down, NavKey.down, NavKey.down] ≠ none
      ∧ (List.foldl (member_table_nav 3) (some 1)
        [NavKey.up, NavKey.down, NavKey.down, NavKey.down]).getD 0 ≤ 3 - 1)) :=
  ⟨by decide,
   C4_selection_clamping 3 1 [NavKey.up, NavKey.down, NavKey.down, NavKey.down]
     (by decide)⟩

/-! ## C5 — credential gating -/

/-- C5: with the network list shown and a network selected, pressing `s`
when the API-key store holds no key for it opens the `APIKey` dialog in
editing mode with a cleared buffer and leaves the page (and hence the
spec-modelled member polling) untouched; when a key is stored, the page
moves to that network's member view with the member cursor reset to 0.
Committing a credential with Enter in the `APIKey` dialog stores it under
the network's id and moves the page to that network's member view, after
which a member fetch is attempted. -/
theorem C5_credential_gating (app : App) (s : Settings) (id : String)
    (hpage : s.page = Page.Networks)
    (hid : s.savednetworksidx.get? (s.network_state.getD 0) = some id) :
    (alLookup s.api_keys id = none →
        press_s app s = .ok ({ app with
          dialog := Dialog.APIKey id,
          editing_mode := EditingMode.Editing,
          inputbuffer := [] }, s)
        ∧ refresher_member_fetch s = none)
    ∧ (∀ key, alLookup s.api_keys id = some key →
        press_s app s = .ok ({ app with member_state := some 0 },
                             { s with page := Page.Network id })
        ∧ refresher_member_fetch { s with page := Page.Network id } = some id)
    ∧ (∀ (app2 : App) (s2 : Settings), app2.dialog = Dialog.APIKey id →
        edit_mode_key app2 s2 KeyCode.Enter
          = .ok ({ app2 with
                    inputbuffer := [],
                    dialog := Dialog.None,
                    editing_mode := EditingMode.Command },
                 { s2 with
                    api_keys := alInsert s2.api_keys id (String.mk app2.inputbuffer),
                    page := Page.Network id }, [])
        ∧ alLookup (alInsert s2.api_keys id (String.mk app2.inputbuffer)) id
            = some (String.mk app2.inputbuffer)
        ∧ refresher_member_fetch { s2 with
            api_keys := alInsert s2.api_keys id (String.mk app2.inputbuffer),
            page := Page.Network id } = some id) := by
  refine ⟨?_, ?_, ?_⟩
  · intro hnone
    constructor
    · simp only [press_s, hid, hnone]
      rfl
    · simp [refresher_member_fetch, hpage]
  · intro key hkey
    constructor
    · simp only [press_s, hid, hkey]
      rfl
    · rfl
  · intro app2 s2 hd
    refine ⟨?_, alLookup_alInsert_self _ _ _, rfl⟩
    simp only [edit_mode_key, hd]
    rfl

/-- C5 (witness): the gating theorem applied to a store without a key, the
same store with a key, and a commit from the credential dialog. -/
theorem C5_credential_gating_witness :
    settingsNoKey.page = Page.Networks ∧
    settingsNoKey.savednetworksidx.get?
        (settingsNoKey.network_state.getD 0) = some "nnnn" ∧
    (press_s App.defaultApp settingsNoKey
        = .ok ({ App.defaultApp with
                  dialog := Dialog.APIKey "nnnn",
                  editing_mode := EditingMode.Editing,
                  inputbuffer := [] }, settingsNoKey)
      ∧ refresher_member_fetch settingsNoKey = none) ∧
    (press_s App.defaultApp settingsWithKey
        = .ok ({ App.defaultApp with member_state := some 0 },
               { settingsWithKey with page := Page.Network "nnnn" })
      ∧ refresher_member_fetch
          { settingsWithKey with page := Page.Network "nnnn" } = some "nnnn") ∧
    (edit_mode_key appKeyDialog settingsNoKey KeyCode.Enter
        = .ok ({ appKeyDialog with
                  inputbuffer := [],
                  dialog := Dialog.None,
                  editing_mode := EditingMode.Command },
               { settingsNoKey with
                  api_keys := alInsert settingsNoKey.api_keys "nnnn"
                    (String.mk appKeyDialog.inputbuffer),
                  page := Page.Network "nnnn" }, [])
      ∧ alLookup (alInsert settingsNoKey.api_keys "nnnn"
            (String.mk appKeyDialog.inputbuffer)) "nnnn"
          = some (String.mk appKeyDialog.inputbuffer)) :=
  ⟨rfl, rfl,
   (C5_credential_gating App.defaultApp settingsNoKey "nnnn" rfl rfl).1 rfl,
   (C5_credential_gating App.defaultApp settingsWithKey "nnnn" rfl rfl).2.1
     "tok" rfl,
   ((C5_credential_gating App.defaultApp settingsNoKey "nnnn" rfl rfl).2.2
       appKeyDialog settingsNoKey rfl).1,
   ((C5_credential_gating App.defaultApp settingsNoKey "nnnn" rfl rfl).2.2
       appKeyDialog settingsNoKey rfl).2.1⟩

/-! ## C6 — settings round trip -/

/-- C6 (counterexample): the claim lists the user config among the
transient fields that "come back as their defaults" after serializing with
`to_file` and reloading with `from_dir`; but `from_dir` reloads it from the
separate `config.json`, so with that file present and non-default the
reloaded user config is not the default. -/
theorem C6_roundtrip_counterexample :
    (Settings.from_dir (Settings.to_file Settings.defaultSettings)
        (some ucPing)).user_config ≠ UserConfig.defaultConfig := by
  decide

/-- C6 (amended): a `to_file`/`from_dir` round trip reproduces the
persisted fields (bookmarked networks, order list, API keys, members,
display filter) identically; the selection cursor, current page and last
error come back as their defaults; the user config comes back as the
content of the separate `config.json` read, falling back to the default
only when that read fails. -/
theorem C6_settings_roundtrip (s : Settings) (uc : Option UserConfig) :
    (Settings.from_dir (Settings.to_file s) uc).api_keys = s.api_keys
    ∧ (Settings.from_dir (Settings.to_file s) uc).savednetworks = s.savednetworks
    ∧ (Settings.from_dir (Settings.to_file s) uc).savednetworksidx = s.savednetworksidx
    ∧ (Settings.from_dir (Settings.to_file s) uc).members = s.members
    ∧ (Settings.from_dir (Settings.to_file s) uc).filter = s.filter
    ∧ (Settings.from_dir (Settings.to_file s) uc).last_error = none
    ∧ (Settings.from_dir (Settings.to_file s) uc).page = Page.Networks
    ∧ (Settings.from_dir (Settings.to_file s) uc).network_state = none
    ∧ (Settings.from_dir (Settings.to_file s) uc).user_config
        = uc.getD UserConfig.defaultConfig :=
  ⟨rfl, rfl, rfl, rfl, rfl, rfl, rfl, rfl, rfl⟩

/-- C6 (witness): the amended round trip at the two-bookmark store with a
present, non-default `config.json`. -/
theorem C6_settings_roundtrip_witness :
    (Settings.from_dir (Settings.to_file settingsXY)
        (some ucPing)).savednetworks = settingsXY.savednetworks
    ∧ (Settings.from_dir (Settings.to_file settingsXY)
        (some ucPing)).network_state = none
    ∧ (Settings.from_dir (Settings.to_file settingsXY)
        (some ucPing)).user_config = (some ucPing).getD UserConfig.defaultConfig :=
  ⟨(C6_settings_roundtrip settingsXY (some ucPing)).2.1,
   (C6_settings_roundtrip settingsXY (some ucPing)).2.2.2.2.2.2.2.1,
   (C6_settings_roundtrip settingsXY (some ucPing)).2.2.2.2.2.2.2.2⟩

/-! ## C7 — template substitution -/

/-- C7: `template_network` replaces `%i` with the interface name, `%n`
with the network id and `%a` with the first assigned address: on the
spec's example — template `"ping %a on %n"`, first address `10.0.0.2`, id
`abcd` — it yields `"ping 10.0.0.2 on abcd"`; and a placeholder that does
not occur in the template leaves the string unchanged (second conjunct,
for every non-empty pattern with no occurrence). -/
theorem C7_template_substitution :
    template_network (some "ping %a on %n") netExample
      = .ok (some "ping 10.0.0.2 on abcd")
    ∧ (∀ pat rep s : List Char, pat ≠ [] → occursIn pat s = false →
        replaceAll pat rep s = s) := by
  constructor
  · rfl
  · intro pat rep s hne
    induction s with
    | nil =>
      intro _
      cases pat with
      | nil => exact absurd rfl hne
      | cons p ps => rfl
    | cons c s ih =>
      intro hocc
      simp only [occursIn, Bool.or_eq_false_iff] at hocc
      cases pat with
      | nil => exact absurd rfl hne
      | cons p ps =>
        show replAux (p :: ps) rep (c :: s) 0 = c :: s
        simp only [replAux, List.isEmpty_cons, Bool.false_eq_true, if_false]
        rw [hocc.1, if_neg (by simp)]
        exact congrArg (c :: ·) (ih hocc.2)

/-- C7 (witness): the no-occurrence conjunct applied to the pattern `%i`,
which does not occur in `"ping %a on %n"`. -/
theorem C7_template_substitution_witness :
    ("%i".data ≠ [] ∧ occursIn "%i".data "ping %a on %n".data = false)
    ∧ replaceAll "%i".data "zt0".data "ping %a on %n".data
        = "ping %a on %n".data :=
  ⟨⟨by decide, by decide⟩,
   C7_template_substitution.2 "%i".data "zt0".data "ping %a on %n".data
     (by decide) (by decide)⟩

/-! ## C8 — process exit behavior -/

/-- C8: the claim states teardown is never skipped on any error path,
including a failed settings-file write.  The successful-write conjuncts
hold as claimed (write, then teardown, then — only for a session error —
printing, and a success status); but a failed settings write propagates
with `?` before the teardown calls (last conjunct: no teardown event), so
the code contradicts the spec's stated contract — the spec's "teardown
must not be skipped on error paths" is the intent, the early `?` the
slip. -/
theorem C8_exit_behavior_eval :
    (main_exit (.ok ()) true).1 = [ExitEvent.write_settings, ExitEvent.teardown]
    ∧ (main_exit (.ok ()) true).2 = .ok ()
    ∧ (main_exit (.error "boom") true).1
        = [ExitEvent.write_settings, ExitEvent.teardown, ExitEvent.print_msg "boom"]
    ∧ ExitEvent.teardown ∉ (main_exit (.ok ()) false).1 := by
  refine ⟨rfl, rfl, rfl, ?_⟩
  decide

/-! ## C10 — user-template lookup totality -/

/-- C10: `command_for_network` with a key that has no bound template
returns `None` without touching the network; with a bound template the
first assigned address is fetched unconditionally (whether or not `%a`
occurs in the template), so the call panics with "No assigned addresses"
instead of returning whenever the address list is empty. -/
theorem C10_command_for_network_totality (uc : UserConfig) (c : Char)
    (net : Network) :
    (alLookup uc.network_commands c = none →
        UserConfig.command_for_network uc c net = .ok none)
    ∧ (∀ t, alLookup uc.network_commands c = some t →
        net.assigned_addresses = [] →
        UserConfig.command_for_network uc c net
          = .error "No assigned addresses") := by
  constructor
  · intro h
    simp [UserConfig.command_for_network, h, template_network]
  · intro t ht hempty
    simp [UserConfig.command_for_network, ht, template_network, hempty]

/-- C10 (witness): an unbound key returns nothing; a bound template with
no `%a` placeholder still panics on a network without addresses. -/
theorem C10_command_for_network_totality_witness :
    (alLookup ucPing.network_commands 'q' = none
      ∧ UserConfig.command_for_network ucPing 'q' netNoAddr = .ok none)
    ∧ (alLookup ucPing.network_commands 'e' = some "echo hi"
      ∧ netNoAddr.assigned_addresses = []
      ∧ UserConfig.command_for_network ucPing 'e' netNoAddr
          = .error "No assigned addresses") :=
  ⟨⟨rfl, (C10_command_for_network_totality ucPing 'q' netNoAddr).1 rfl⟩,
   ⟨rfl, rfl,
    (C10_command_for_network_totality ucPing 'e' netNoAddr).2 "echo hi" rfl rfl⟩⟩

/-! ## C9 — Backspace drains the last byte -/

theorem utf8Len_append (xs ys : List Char) :
    utf8Len (xs ++ ys) = utf8Len xs + utf8Len ys := by
  induction xs with
  | nil => simp [utf8Len]
  | cons c xs ih =>
    show c.utf8Size + utf8Len (xs ++ ys) = (c.utf8Size + utf8Len xs) + utf8Len ys
    rw [ih]
    omega

theorem isBoundary_append (xs ys : List Char) (j : Nat) :
    isBoundary (xs ++ ys) (utf8Len xs + j) = isBoundary ys j := by
  induction xs with
  | nil => simp [utf8Len]
  | cons c xs ih =>
    have hc := Char.utf8Size_pos c
    obtain ⟨m, hm⟩ : ∃ m, c.utf8Size = m + 1 := ⟨c.utf8Size - 1, by omega⟩
    have harg : utf8Len (c :: xs) + j = (m + (utf8Len xs + j)) + 1 := by
      simp only [utf8Len, hm]
      omega
    rw [List.cons_append, harg]
    simp only [isBoundary]
    rw [if_neg (by omega), hm]
    have harg2 : m + (utf8Len xs + j) + 1 - (m + 1) = utf8Len xs + j := by omega
    rw [harg2, ih]

theorem drainGo_append_keep (lo hi : Nat) (xs rest : List Char) (off : Nat)
    (h : off + utf8Len xs ≤ lo) :
    drainGo lo hi (xs ++ rest) off
      = xs ++ drainGo lo hi rest (off + utf8Len xs) := by
  induction xs generalizing off with
  | nil => simp [utf8Len]
  | cons c xs ih =>
    have hc := Char.utf8Size_pos c
    have hlen : utf8Len (c :: xs) = c.utf8Size + utf8Len xs := rfl
    rw [hlen] at h
    have hoff : ¬(lo ≤ off ∧ off < hi) := by omega
    rw [List.cons_append]
    simp only [drainGo]
    rw [if_neg hoff, ih (off + c.utf8Size) (by omega)]
    have harg : off + c.utf8Size + utf8Len xs = off + utf8Len (c :: xs) := by
      rw [hlen]
      omega
    rw [harg]
    rfl

/-- C9 (counterexample): the claim asserts the Backspace handler removes
the final character and never panics, in particular for a multi-byte final
character; but on the one-character buffer `é` (2 UTF-8 bytes) the drained
byte range `len-1..len` starts inside the character, and `String::drain`
panics instead of producing any buffer. -/
theorem C9_backspace_counterexample :
    backspace ['é'] = .error "byte index is not a char boundary"
    ∧ backspace ['é'] ≠ .ok []
    ∧ ('é').utf8Size = 2 :=
  ⟨rfl, fun h => Except.noConfusion h, rfl⟩

/-- C9 (amended): Backspace leaves an empty buffer unchanged; when the
buffer's final character is a single-byte character it removes exactly
that character; but when the final character is multi-byte, the drained
byte range `len-1..len` does not start on a character boundary and the
handler panics instead of returning a buffer. -/
theorem C9_backspace_drain (xs : List Char) (c : Char) :
    backspace [] = .ok ([] : List Char)
    ∧ (c.utf8Size = 1 → backspace (xs ++ [c]) = .ok xs)
    ∧ (2 ≤ c.utf8Size →
        backspace (xs ++ [c]) = .error "byte index is not a char boundary") := by
  refine ⟨rfl, ?_, ?_⟩
  · intro h1
    have hlen : utf8Len (xs ++ [c]) = utf8Len xs + 1 := by
      rw [utf8Len_append]
      simp [utf8Len, h1]
    simp only [backspace, hlen]
    rw [if_pos (by omega)]
    have hsub : utf8Len xs + 1 - 1 = utf8Len xs := by omega
    rw [hsub]
    have hb1 : isBoundary (xs ++ [c]) (utf8Len xs) = true := by
      have h := isBoundary_append xs [c] 0
      simpa using h
    have hb2 : isBoundary (xs ++ [c]) (utf8Len xs + 1) = true := by
      rw [isBoundary_append xs [c] 1]
      simp [isBoundary, h1]
    simp only [drainRange]
    rw [if_pos ⟨by omega, hb1, hb2⟩]
    rw [drainGo_append_keep _ _ _ _ 0 (by omega)]
    simp only [Nat.zero_add, drainGo]
    rw [if_pos ⟨Nat.le_refl _, by omega⟩]
    simp [drainGo]
  · intro h2
    have hc1 := Char.utf8Size_pos c
    have hlen : utf8Len (xs ++ [c]) = utf8Len xs + c.utf8Size := by
      rw [utf8Len_append]
      simp [utf8Len]
    simp only [backspace, hlen]
    rw [if_pos (by omega)]
    have hsub : utf8Len xs + c.utf8Size - 1 = utf8Len xs + (c.utf8Size - 1) := by
      omega
    rw [hsub]
    have hb : isBoundary (xs ++ [c]) (utf8Len xs + (c.utf8Size - 1)) = false := by
      rw [isBoundary_append]
      obtain ⟨m, hm⟩ : ∃ m, c.utf8Size - 1 = m + 1 := ⟨c.utf8Size - 2, by omega⟩
      rw [hm]
      simp only [isBoundary]
      rw [if_pos (by omega)]
    have hcon : ¬(utf8Len xs + (c.utf8Size - 1) ≤ utf8Len xs + c.utf8Size
        ∧ isBoundary (xs ++ [c]) (utf8Len xs + (c.utf8Size - 1)) = true
        ∧ isBoundary (xs ++ [c]) (utf8Len xs + c.utf8Size) = true) := by
      intro hcontra
      rw [hb] at hcontra
      exact Bool.false_ne_true hcontra.2.1
    simp only [drainRange]
    rw [if_neg hcon]

/-- C9 (witness): the amended theorem on an ASCII tail (`"ab"`, Backspace
leaves `"a"`) and on a multi-byte tail (`['x', 'é']`, Backspace panics). -/
theorem C9_backspace_drain_witness :
    (('b').utf8Size = 1 ∧ backspace ['a', 'b'] = .ok ['a'])
    ∧ (2 ≤ ('é').utf8Size
      ∧ backspace ['x', 'é'] = .error "byte index is not a char boundary") :=
  ⟨⟨rfl, (C9_backspace_drain ['a'] 'b').2.1 rfl⟩,
   ⟨by decide, (C9_backspace_drain ['x'] 'é').2.2 (by decide)⟩⟩
